import Mathlib

set_option autoImplicit false

/-!
Shallow embedding of the maritime document extractor backend:
`src/backend/models.py` (pydantic record types), `src/backend/vision.py`
(schema load, client initialization, the extraction repair loop) and
`src/backend/main.py` (upload / result / health endpoints).

Payloads exchanged with the inference provider are modelled as JSON values;
numeric JSON values are modelled as rationals (no arithmetic is performed on
them, they are passed through), datetime fields store the raw timestamp text
(no claim depends on datetime parsing), and base64 encoding of image bytes is
abstracted (the encoded text is threaded through opaquely).
-/

/-- JSON values. Objects are ordered association lists, mirroring parsed
JSON dictionaries. -/
inductive Json where
  | null : Json
  | bool (b : Bool) : Json
  | num (q : Rat) : Json
  | str (s : String) : Json
  | arr (elems : List Json) : Json
  | obj (fields : List (String × Json)) : Json

/-- Project a JSON value to its object fields, failing on any other shape. -/
def getObjFields : Json → Except String (List (String × Json))
  | Json.obj fs => Except.ok fs
  | _ => Except.error "Input should be a valid dictionary"

/-- First binding of a key in a JSON object, as python dict lookup. -/
def findField (fs : List (String × Json)) (k : String) : Option Json :=
  (fs.find? (fun kv => kv.1 == k)).map (fun kv => kv.2)

/-- The closed-world check of pydantic `ConfigDict(extra='forbid')`: any key
outside the declared field list is a validation failure. -/
def checkExtra (declared : List String) (fs : List (String × Json)) :
    Except String Unit :=
  match fs.find? (fun kv => !(declared.contains kv.1)) with
  | some kv => Except.error ("Extra inputs are not permitted: " ++ kv.1)
  | none => Except.ok ()

/-- Required string field. -/
def reqStr (fs : List (String × Json)) (k : String) : Except String String :=
  match findField fs k with
  | some (Json.str s) => Except.ok s
  | some _ => Except.error ("Input should be a valid string: " ++ k)
  | none => Except.error ("Field required: " ++ k)

/-- Required numeric field. -/
def reqNum (fs : List (String × Json)) (k : String) : Except String Rat :=
  match findField fs k with
  | some (Json.num q) => Except.ok q
  | some _ => Except.error ("Input should be a valid number: " ++ k)
  | none => Except.error ("Field required: " ++ k)

/-- Non-optional numeric field with a default applied when absent
(pydantic `water_bbls: float = 0.0`). -/
def numOrDefault (fs : List (String × Json)) (k : String) (d : Rat) :
    Except String Rat :=
  match findField fs k with
  | some (Json.num q) => Except.ok q
  | some _ => Except.error ("Input should be a valid number: " ++ k)
  | none => Except.ok d

/-- Optional numeric field: absent or null is `none`. -/
def optNum (fs : List (String × Json)) (k : String) :
    Except String (Option Rat) :=
  match findField fs k with
  | some Json.null => Except.ok none
  | some (Json.num q) => Except.ok (some q)
  | some _ => Except.error ("Input should be a valid number: " ++ k)
  | none => Except.ok none

/-- Optional string field: absent or null is `none`. -/
def optStr (fs : List (String × Json)) (k : String) :
    Except String (Option String) :=
  match findField fs k with
  | some Json.null => Except.ok none
  | some (Json.str s) => Except.ok (some s)
  | some _ => Except.error ("Input should be a valid string: " ++ k)
  | none => Except.ok none

/-- Optional datetime field; the raw timestamp text is stored, datetime
parsing being irrelevant to every claim. -/
def optDatetime (fs : List (String × Json)) (k : String) :
    Except String (Option String) :=
  optStr fs k

/-- Optional nested model field. -/
def optModel {α : Type} (validate : Json → Except String α)
    (fs : List (String × Json)) (k : String) : Except String (Option α) :=
  match findField fs k with
  | some Json.null => Except.ok none
  | some j => (validate j).map some
  | none => Except.ok none

/-- Required nested model field. -/
def reqModel {α : Type} (validate : Json → Except String α)
    (fs : List (String × Json)) (k : String) : Except String α :=
  match findField fs k with
  | some j => validate j
  | none => Except.error ("Field required: " ++ k)

/-- Required list-of-models field. -/
def reqListOf {α : Type} (validate : Json → Except String α)
    (fs : List (String × Json)) (k : String) : Except String (List α) :=
  match findField fs k with
  | some (Json.arr xs) => xs.mapM validate
  | some _ => Except.error ("Input should be a valid list: " ++ k)
  | none => Except.error ("Field required: " ++ k)

/-- Optional string-keyed dictionary of models. -/
def optDictOf {α : Type} (validate : Json → Except String α)
    (fs : List (String × Json)) (k : String) :
    Except String (Option (List (String × α))) :=
  match findField fs k with
  | some Json.null => Except.ok none
  | some (Json.obj kvs) =>
    (kvs.mapM (fun kv => (validate kv.2).map (fun a => (kv.1, a)))).map some
  | some _ => Except.error ("Input should be a valid dictionary: " ++ k)
  | none => Except.ok none

/-- Whether a validation result succeeded. -/
def validationPasses {α : Type} : Except String α → Bool
  | Except.ok _ => true
  | Except.error _ => false

/-- A pydantic model with `extra='forbid'`: input must be an object, is
rejected if it holds any undeclared key, and its declared fields are then
parsed. -/
def validateClosed {α : Type} (declared : List String)
    (parseFields : List (String × Json) → Except String α) (j : Json) :
    Except String α :=
  match getObjFields j with
  | Except.error e => Except.error e
  | Except.ok fs =>
    match checkExtra declared fs with
    | Except.error e => Except.error e
    | Except.ok _ => parseFields fs

/-- `class TankCondition` of src/backend/models.py. -/
structure TankCondition where
  tank_id : String
  product : String
  api : Rat
  ullage_ft : Rat
  ullage_in : Rat
  temperature_f : Rat
  water_bbls : Rat
  gross_bbls : Rat
  net_bbls : Option Rat
  metric_tons : Option Rat
deriving DecidableEq, Repr

def TankCondition.declared : List String :=
  ["tank_id", "product", "api", "ullage_ft", "ullage_in", "temperature_f",
   "water_bbls", "gross_bbls", "net_bbls", "metric_tons"]

def TankCondition.parseFields (fs : List (String × Json)) :
    Except String TankCondition := do
  let tank_id ← reqStr fs "tank_id"
  let product ← reqStr fs "product"
  let api ← reqNum fs "api"
  let ullage_ft ← reqNum fs "ullage_ft"
  let ullage_in ← reqNum fs "ullage_in"
  let temperature_f ← reqNum fs "temperature_f"
  let water_bbls ← numOrDefault fs "water_bbls" 0
  let gross_bbls ← reqNum fs "gross_bbls"
  let net_bbls ← optNum fs "net_bbls"
  let metric_tons ← optNum fs "metric_tons"
  Except.ok { tank_id, product, api, ullage_ft, ullage_in, temperature_f,
              water_bbls, gross_bbls, net_bbls, metric_tons }

def TankCondition.model_validate : Json → Except String TankCondition :=
  validateClosed TankCondition.declared TankCondition.parseFields

/-- `class ProductTotals` of src/backend/models.py. -/
structure ProductTotals where
  gross_bbls : Rat
  net_bbls : Option Rat
  metric_tons : Option Rat
deriving DecidableEq, Repr

def ProductTotals.declared : List String :=
  ["gross_bbls", "net_bbls", "metric_tons"]

def ProductTotals.parseFields (fs : List (String × Json)) :
    Except String ProductTotals := do
  let gross_bbls ← reqNum fs "gross_bbls"
  let net_bbls ← optNum fs "net_bbls"
  let metric_tons ← optNum fs "metric_tons"
  Except.ok { gross_bbls, net_bbls, metric_tons }

def ProductTotals.model_validate : Json → Except String ProductTotals :=
  validateClosed ProductTotals.declared ProductTotals.parseFields

/-- `class Timestamps` of src/backend/models.py. -/
structure Timestamps where
  arrival : Option String
  all_fast : Option String
  boom_on : Option String
  hose_on : Option String
  comm_ld : Option String
  comp_ld : Option String
  hose_off : Option String
  boom_off : Option String
  depart : Option String
deriving DecidableEq, Repr

def Timestamps.declared : List String :=
  ["arrival", "all_fast", "boom_on", "hose_on", "comm_ld", "comp_ld",
   "hose_off", "boom_off", "depart"]

def Timestamps.parseFields (fs : List (String × Json)) :
    Except String Timestamps := do
  let arrival ← optDatetime fs "arrival"
  let all_fast ← optDatetime fs "all_fast"
  let boom_on ← optDatetime fs "boom_on"
  let hose_on ← optDatetime fs "hose_on"
  let comm_ld ← optDatetime fs "comm_ld"
  let comp_ld ← optDatetime fs "comp_ld"
  let hose_off ← optDatetime fs "hose_off"
  let boom_off ← optDatetime fs "boom_off"
  let depart ← optDatetime fs "depart"
  Except.ok { arrival, all_fast, boom_on, hose_on, comm_ld, comp_ld,
              hose_off, boom_off, depart }

def Timestamps.model_validate : Json → Except String Timestamps :=
  validateClosed Timestamps.declared Timestamps.parseFields

/-- `class Drafts` of src/backend/models.py. -/
structure Drafts where
  fwd_port : Rat
  fwd_stbd : Rat
  aft_port : Rat
  aft_stbd : Rat
deriving DecidableEq, Repr

def Drafts.declared : List String :=
  ["fwd_port", "fwd_stbd", "aft_port", "aft_stbd"]

def Drafts.parseFields (fs : List (String × Json)) : Except String Drafts := do
  let fwd_port ← reqNum fs "fwd_port"
  let fwd_stbd ← reqNum fs "fwd_stbd"
  let aft_port ← reqNum fs "aft_port"
  let aft_stbd ← reqNum fs "aft_stbd"
  Except.ok { fwd_port, fwd_stbd, aft_port, aft_stbd }

def Drafts.model_validate : Json → Except String Drafts :=
  validateClosed Drafts.declared Drafts.parseFields

/-- `class BargeInfo` of src/backend/models.py. -/
structure BargeInfo where
  name : String
  voyage_number : Option String
  otb_job_number : Option String
deriving DecidableEq, Repr

def BargeInfo.declared : List String :=
  ["name", "voyage_number", "otb_job_number"]

def BargeInfo.parseFields (fs : List (String × Json)) :
    Except String BargeInfo := do
  let name ← reqStr fs "name"
  let voyage_number ← optStr fs "voyage_number"
  let otb_job_number ← optStr fs "otb_job_number"
  Except.ok { name, voyage_number, otb_job_number }

def BargeInfo.model_validate : Json → Except String BargeInfo :=
  validateClosed BargeInfo.declared BargeInfo.parseFields

/-- `class PortInfo` of src/backend/models.py. -/
structure PortInfo where
  vessel_name : String
  port_city : Option String
deriving DecidableEq, Repr

def PortInfo.declared : List String :=
  ["vessel_name", "port_city"]

def PortInfo.parseFields (fs : List (String × Json)) :
    Except String PortInfo := do
  let vessel_name ← reqStr fs "vessel_name"
  let port_city ← optStr fs "port_city"
  Except.ok { vessel_name, port_city }

def PortInfo.model_validate : Json → Except String PortInfo :=
  validateClosed PortInfo.declared PortInfo.parseFields

/-- `class ArrivalDeparture` of src/backend/models.py. -/
structure ArrivalDeparture where
  water_specific_gravity : Option Rat
  drafts_ft : Option Drafts
  timestamps : Option Timestamps
  tanks : List TankCondition
  summary_by_product : Option (List (String × ProductTotals))
deriving DecidableEq, Repr

def ArrivalDeparture.declared : List String :=
  ["water_specific_gravity", "drafts_ft", "timestamps", "tanks",
   "summary_by_product"]

def ArrivalDeparture.parseFields (fs : List (String × Json)) :
    Except String ArrivalDeparture := do
  let water_specific_gravity ← optNum fs "water_specific_gravity"
  let drafts_ft ← optModel Drafts.model_validate fs "drafts_ft"
  let timestamps ← optModel Timestamps.model_validate fs "timestamps"
  let tanks ← reqListOf TankCondition.model_validate fs "tanks"
  let summary_by_product ← optDictOf ProductTotals.model_validate fs
    "summary_by_product"
  Except.ok { water_specific_gravity, drafts_ft, timestamps, tanks,
              summary_by_product }

def ArrivalDeparture.model_validate : Json → Except String ArrivalDeparture :=
  validateClosed ArrivalDeparture.declared ArrivalDeparture.parseFields

/-- `class FieldDocument` of src/backend/models.py. -/
structure FieldDocument where
  barge : BargeInfo
  port : PortInfo
  arrival : ArrivalDeparture
  departure : ArrivalDeparture
  products_loaded_discharged : Option (List (String × ProductTotals))
deriving DecidableEq, Repr

def FieldDocument.declared : List String :=
  ["barge", "port", "arrival", "departure", "products_loaded_discharged"]

def FieldDocument.parseFields (fs : List (String × Json)) :
    Except String FieldDocument := do
  let barge ← reqModel BargeInfo.model_validate fs "barge"
  let port ← reqModel PortInfo.model_validate fs "port"
  let arrival ← reqModel ArrivalDeparture.model_validate fs "arrival"
  let departure ← reqModel ArrivalDeparture.model_validate fs "departure"
  let products_loaded_discharged ← optDictOf ProductTotals.model_validate fs
    "products_loaded_discharged"
  Except.ok { barge, port, arrival, departure, products_loaded_discharged }

def FieldDocument.model_validate : Json → Except String FieldDocument :=
  validateClosed FieldDocument.declared FieldDocument.parseFields

/-- Roles of conversation turns. -/
inductive Role where
  | system : Role
  | user : Role
  | assistant : Role
deriving DecidableEq, Repr

/-- Content of a conversation turn: plain text, the initial user turn
carrying task text plus the image data url, or a raw model payload echoed
back as an assistant turn. -/
inductive Content where
  | text (s : String) : Content
  | imageUser (caption : String) (url : String) : Content
  | payload (j : Json) : Content

/-- One conversation turn. -/
structure Message where
  role : Role
  content : Content

/-- Outcome of one inference call: a payload, or a transport/provider
error carrying its message. -/
inductive ProviderResult where
  | payload (j : Json) : ProviderResult
  | err (e : String) : ProviderResult

/-- `get_openai_client` of src/backend/vision.py: reads the credential from
the process environment and fails when it is absent or empty (python
`if not api_key`). The environment is passed explicitly; the lazily cached
client handle carries no further observable state. -/
def get_openai_client (env : Option String) : Except String Unit :=
  match env with
  | some api_key =>
    if api_key == "" then
      Except.error "OPENAI_API_KEY environment variable is not set"
    else Except.ok ()
  | none => Except.error "OPENAI_API_KEY environment variable is not set"

/-- Python dict assignment `d[k] = v`: replace the binding if the key is
present, otherwise append it. -/
def setKey (fs : List (String × Json)) (k : String) (v : Json) :
    List (String × Json) :=
  if fs.any (fun kv => kv.1 == k) then
    fs.map (fun kv => if kv.1 == k then (k, v) else kv)
  else fs ++ [(k, v)]

/-- Lines 23 and 24 of src/backend/vision.py: the stored schema resource is
parsed and its additionalProperties flag is forced to false. The stored
resource content is a parameter, quantifying over whatever the schema file
holds. -/
def loadSchema (stored : List (String × Json)) : List (String × Json) :=
  setKey stored "additionalProperties" (Json.bool false)

/-- The fixed system directive of src/backend/vision.py. -/
def system_prompt : String :=
  "You are a maritime cargo document parser. Extract ALL values exactly per schema:\n1. Tank IDs, dates in ISO-8601, all tank rows,\n2. calculate summary totals,\n3. preserve decimals, etc."

/-- The initial conversation: system directive, then the user turn with the
task text and the base64 image data url. -/
def initialMessages (image_b64 : String) : List Message :=
  [{ role := Role.system, content := Content.text system_prompt },
   { role := Role.user,
     content := Content.imageUser
       "Extract all data from this document, incl. vessel name, tanks, timestamps."
       ("data:image/jpeg;base64," ++ image_b64) }]

/-- The assistant turn appended on retry: `extracted if extracted else ""`,
where `extracted` holds the last payload received from the provider, if any. -/
def attemptContent : Option Json → Content
  | some j => Content.payload j
  | none => Content.text ""

/-- The corrective user text: `f"Please fix error and capture all data: {e}"`. -/
def fixInstruction (e : String) : String :=
  "Please fix error and capture all data: " ++ e

/-- The two turns appended before a retry: the prior assistant payload and
the corrective user turn. -/
def retryTurns (extracted : Option Json) (e : String) : List Message :=
  [{ role := Role.assistant, content := attemptContent extracted },
   { role := Role.user, content := Content.text (fixInstruction e) }]

/-- Result of the engine: a validated document, a raised error, or python
falling off the end of the function and implicitly returning None. -/
inductive EngineResult where
  | success (d : FieldDocument) : EngineResult
  | failure (e : String) : EngineResult
  | noneReturned : EngineResult
deriving DecidableEq, Repr

/-- The retry loop of `extract_document_data` (src/backend/vision.py lines
47 to 65). `remaining` counts loop iterations still available, so the
current python loop index is `max_retries - remaining`; each iteration
invokes the provider on the accumulated conversation, validates any payload,
and on failure either appends the two retry turns and continues (while
`attempt < max_retries - 1`) or re-raises the error. Returns the result
together with the outbound conversation of each performed attempt. -/
def extractLoop (provider : Nat → List Message → ProviderResult)
    (max_retries : Nat) :
    Nat → List Message → Option Json → EngineResult × List (List Message)
  | 0, _, _ => (EngineResult.noneReturned, [])
  | remaining + 1, messages, extracted =>
    let attempt := max_retries - (remaining + 1)
    match provider attempt messages with
    | ProviderResult.payload j =>
      match FieldDocument.model_validate j with
      | Except.ok d => (EngineResult.success d, [messages])
      | Except.error e =>
        if attempt < max_retries - 1 then
          let next := extractLoop provider max_retries remaining
            (messages ++ retryTurns (some j) e) (some j)
          (next.1, messages :: next.2)
        else (EngineResult.failure e, [messages])
    | ProviderResult.err e =>
      if attempt < max_retries - 1 then
        let next := extractLoop provider max_retries remaining
          (messages ++ retryTurns extracted e) extracted
        (next.1, messages :: next.2)
      else (EngineResult.failure e, [messages])

/-- Observable side effects of one request, in program order. -/
inductive Event where
  | readSchemaResource : Event
  | readImage : Event
  | getClient : Event
  | providerCall (attempt : Nat) : Event
  | writeImageFile (id : String) : Event
  | writeResultFile (id : String) (filename : String) (processed_at : String)
      (data : FieldDocument) : Event

/-- Everything one call of `extract_document_data` did: the schema attached
to each outbound request, the side effects in order, the conversation sent
on each attempt, and the result. -/
structure EngineRun where
  schemaSent : List (String × Json)
  events : List Event
  transcripts : List (List Message)
  result : EngineResult

/-- `extract_document_data` of src/backend/vision.py: re-reads and loads the
schema resource, reads and encodes the image, builds the initial
conversation, obtains the client (raising if the credential is absent), and
runs the retry loop. The provider is the opaque inference collaborator,
indexed by attempt number and the conversation it is sent. -/
def extract_document_data (stored : List (String × Json)) (env : Option String)
    (provider : Nat → List Message → ProviderResult) (image_b64 : String)
    (max_retries : Nat) : EngineRun :=
  let schema := loadSchema stored
  let messages := initialMessages image_b64
  match get_openai_client env with
  | Except.error e =>
    { schemaSent := schema
      events := [Event.readSchemaResource, Event.readImage]
      transcripts := []
      result := EngineResult.failure e }
  | Except.ok _ =>
    let run := extractLoop provider max_retries max_retries messages none
    { schemaSent := schema
      events := [Event.readSchemaResource, Event.readImage, Event.getClient]
        ++ (List.range run.2.length).map Event.providerCall
      transcripts := run.2
      result := run.1 }

/-- An uploaded file as the endpoint sees it: declared filename, declared
media type, and content (already base64 encoded, the encoding itself being
opaque to every claim). -/
structure UploadFile where
  filename : String
  content_type : String
  content_b64 : String

/-- Response of the upload endpoint. -/
inductive UploadResponse where
  | httpError (status : Nat) (detail : String) : UploadResponse
  | completed (id : String) (data : FieldDocument) : UploadResponse
  | errorResponse (id : String) (error : String) : UploadResponse
deriving DecidableEq, Repr

/-- The result record persisted on success:
id, filename, processed_at, data. -/
structure ResultRecord where
  id : String
  filename : String
  processed_at : String
  data : FieldDocument
deriving DecidableEq, Repr

/-- Python `str.startswith`, on the character sequences of the strings. -/
def strStartsWith (s p : String) : Bool :=
  p.data.isPrefixOf s.data

/-- `upload_document` of src/backend/main.py: reject non-image media types
with a 400 before any storage or extraction; otherwise persist the image,
run the engine, and on success write the result record, on failure return a
structured error response without writing a result file. `file_id` stands
for the freshly drawn uuid and `now` for the current UTC timestamp text. -/
def upload_document (stored : List (String × Json)) (env : Option String)
    (provider : Nat → List Message → ProviderResult) (file : UploadFile)
    (file_id : String) (now : String) : UploadResponse × List Event :=
  if !(strStartsWith file.content_type "image/") then
    (UploadResponse.httpError 400 "Only image files are accepted", [])
  else
    let run := extract_document_data stored env provider file.content_b64 3
    match run.result with
    | EngineResult.success d =>
      (UploadResponse.completed file_id d,
        Event.writeImageFile file_id :: run.events
          ++ [Event.writeResultFile file_id file.filename now d])
    | EngineResult.failure e =>
      (UploadResponse.errorResponse file_id e,
        Event.writeImageFile file_id :: run.events)
    | EngineResult.noneReturned =>
      (UploadResponse.errorResponse file_id
        "AttributeError: NoneType object has no attribute model_dump",
        Event.writeImageFile file_id :: run.events)

/-- The result files present after a trace of events. -/
def resultFiles (events : List Event) : List (String × ResultRecord) :=
  events.filterMap (fun e =>
    match e with
    | Event.writeResultFile i f p d => some (i, ⟨i, f, p, d⟩)
    | _ => none)

/-- `get_result` of src/backend/main.py: serve the persisted record, or a
404 when no result file exists for the identifier. -/
def get_result (store : List (String × ResultRecord)) (file_id : String) :
    Except (Nat × String) ResultRecord :=
  match store.find? (fun kv => kv.1 == file_id) with
  | some kv => Except.ok kv.2
  | none => Except.error (404, "Result not found")

/-- `health_check` of src/backend/main.py: a fixed liveness body, reading
nothing from the environment. -/
def health_check (_env : Option String) : List (String × Json) :=
  [("status", Json.str "healthy")]

/-- Whether a provider outcome fails the attempt: a transport error, or a
payload the document model rejects. -/
def isFailOutcome : ProviderResult → Bool
  | ProviderResult.payload j => !(validationPasses (FieldDocument.model_validate j))
  | ProviderResult.err _ => true

/-- The error text an outcome surfaces, if it fails. -/
def outcomeError : ProviderResult → Option String
  | ProviderResult.payload j =>
    match FieldDocument.model_validate j with
    | Except.ok _ => none
    | Except.error e => some e
  | ProviderResult.err e => some e

/-- Recognize a schema resource read among events. -/
def isSchemaRead : Event → Bool
  | Event.readSchemaResource => true
  | _ => false

/-- How many times a trace of events read the schema resource. -/
def schemaReadCount (events : List Event) : Nat :=
  events.countP isSchemaRead

/-- One step of the conversation state (messages so far, last payload
received): exactly what one failed attempt of the loop appends. -/
def stepState (provider : Nat → List Message → ProviderResult) (k : Nat)
    (st : List Message × Option Json) : List Message × Option Json :=
  match provider k st.1 with
  | ProviderResult.payload j =>
    match FieldDocument.model_validate j with
    | Except.ok _ => st
    | Except.error e => (st.1 ++ retryTurns (some j) e, some j)
  | ProviderResult.err e => (st.1 ++ retryTurns st.2 e, st.2)

/-- The conversation state entering attempt `k`, in closed form. -/
def attemptState (provider : Nat → List Message → ProviderResult)
    (init : List Message) : Nat → List Message × Option Json
  | 0 => (init, none)
  | k + 1 => stepState provider k (attemptState provider init k)

/-- The payload of the most recent attempt before attempt `k` that received
one, reading the requests actually sent from the transcripts. -/
def lastPayloadOutcome (provider : Nat → List Message → ProviderResult)
    (ts : List (List Message)) : Nat → Option Json
  | 0 => none
  | k + 1 =>
    match provider k (ts.getD k []) with
    | ProviderResult.payload j => some j
    | ProviderResult.err _ => lastPayloadOutcome provider ts k

/-- A minimal schema-valid payload: required fields only, empty tank lists. -/
def sampleDocJson : Json :=
  Json.obj [
    ("barge", Json.obj [("name", Json.str "BargeOne")]),
    ("port", Json.obj [("vessel_name", Json.str "VesselOne")]),
    ("arrival", Json.obj [("tanks", Json.arr [])]),
    ("departure", Json.obj [("tanks", Json.arr [])])]

/-- The document that validating sampleDocJson produces. -/
def sampleDoc : FieldDocument :=
  { barge := { name := "BargeOne", voyage_number := none, otb_job_number := none }
    port := { vessel_name := "VesselOne", port_city := none }
    arrival := { water_specific_gravity := none, drafts_ft := none,
                 timestamps := none, tanks := [], summary_by_product := none }
    departure := { water_specific_gravity := none, drafts_ft := none,
                   timestamps := none, tanks := [], summary_by_product := none }
    products_loaded_discharged := none }

theorem validateClosed_extra {α : Type} (declared : List String)
    (parseFields : List (String × Json) → Except String α)
    (fs : List (String × Json)) (k : String) (v : Json)
    (hmem : (k, v) ∈ fs) (hk : declared.contains k = false) :
    validationPasses (validateClosed declared parseFields (Json.obj fs)) = false := by
  have hk' : k ∉ declared := by simpa using hk
  have hfind : fs.find? (fun kv => !(declared.contains kv.1)) ≠ none := by
    intro hnone
    rw [List.find?_eq_none] at hnone
    have h := hnone (k, v) hmem
    simp at h
    exact hk' h
  cases hf : fs.find? (fun kv => !(declared.contains kv.1)) with
  | none => exact absurd hf hfind
  | some kv =>
    have hval : validateClosed declared parseFields (Json.obj fs)
        = Except.error ("Extra inputs are not permitted: " ++ kv.1) := by
      unfold validateClosed
      simp only [getObjFields]
      unfold checkExtra
      rw [hf]
    rw [hval]
    rfl

theorem findField_map_subst (fs : List (String × Json)) (k : String) (v : Json)
    (h : fs.any (fun kv => kv.1 == k) = true) :
    findField (fs.map (fun kv => if kv.1 == k then (k, v) else kv)) k = some v := by
  induction fs with
  | nil => simp at h
  | cons hd tl ih =>
    by_cases hhd : (hd.1 == k) = true
    · simp only [List.map_cons, hhd, if_true, findField]
      rw [List.find?_cons_of_pos _ (by simp)]
      rfl
    · simp only [Bool.not_eq_true] at hhd
      simp only [List.any_cons, hhd, Bool.false_or] at h
      simp only [List.map_cons, hhd, if_false, findField]
      rw [List.find?_cons_of_neg _ (by simp [hhd])]
      exact ih h

theorem findField_append_new (fs : List (String × Json)) (k : String) (v : Json)
    (h : fs.any (fun kv => kv.1 == k) = false) :
    findField (fs ++ [(k, v)]) k = some v := by
  induction fs with
  | nil =>
    simp only [List.nil_append, findField]
    rw [List.find?_cons_of_pos _ (by simp)]
    rfl
  | cons hd tl ih =>
    simp only [List.any_cons, Bool.or_eq_false_iff] at h
    simp only [List.cons_append, findField]
    rw [List.find?_cons_of_neg _ (by simp [h.1])]
    exact ih h.2

theorem findField_setKey (fs : List (String × Json)) (k : String) (v : Json) :
    findField (setKey fs k v) k = some v := by
  unfold setKey
  by_cases h : fs.any (fun kv => kv.1 == k) = true
  · rw [if_pos h]
    exact findField_map_subst fs k v h
  · simp only [Bool.not_eq_true] at h
    rw [if_neg (by simp [h])]
    exact findField_append_new fs k v h

theorem extractLoop_ne_none (provider : Nat → List Message → ProviderResult)
    (max_retries : Nat) :
    ∀ remaining messages extracted, 0 < remaining →
      (extractLoop provider max_retries remaining messages extracted).1
        ≠ EngineResult.noneReturned := by
  intro remaining
  induction remaining with
  | zero => intro _ _ h; omega
  | succ rem ih =>
    intro messages extracted _
    unfold extractLoop
    cases hp : provider (max_retries - (rem + 1)) messages with
    | payload j =>
      simp only [hp]
      cases hv : FieldDocument.model_validate j with
      | ok d => simp [hv]
      | error e =>
        simp only [hv]
        by_cases hc : max_retries - (rem + 1) < max_retries - 1
        · rw [if_pos hc]
          exact ih _ _ (by omega)
        · rw [if_neg hc]
          simp
    | err e =>
      simp only [hp]
      by_cases hc : max_retries - (rem + 1) < max_retries - 1
      · rw [if_pos hc]
        exact ih _ _ (by omega)
      · rw [if_neg hc]
        simp

theorem extractLoop_exhaust (provider : Nat → List Message → ProviderResult)
    (max_retries : Nat)
    (hfail : ∀ k m, isFailOutcome (provider k m) = true) :
    ∀ remaining messages extracted, 0 < remaining → remaining ≤ max_retries →
      (extractLoop provider max_retries remaining messages extracted).2.length
          = remaining ∧
      ∃ e, (extractLoop provider max_retries remaining messages extracted).1
          = EngineResult.failure e ∧
        outcomeError (provider (max_retries - 1)
          ((extractLoop provider max_retries remaining messages extracted).2.getD
            (remaining - 1) [])) = some e := by
  intro remaining
  induction remaining with
  | zero => intro _ _ h; omega
  | succ rem ih =>
    intro messages extracted _ hle
    unfold extractLoop
    cases hp : provider (max_retries - (rem + 1)) messages with
    | payload j =>
      have hf := hfail (max_retries - (rem + 1)) messages
      rw [hp] at hf
      cases hv : FieldDocument.model_validate j with
      | ok d =>
        rw [isFailOutcome, hv] at hf
        simp [validationPasses] at hf
      | error e =>
        simp only [hp, hv]
        by_cases hc : max_retries - (rem + 1) < max_retries - 1
        · rw [if_pos hc]
          have hrem : 0 < rem := by omega
          obtain ⟨hlen, e', he', hout⟩ := ih (messages ++ retryTurns (some j) e)
            (some j) hrem (by omega)
          refine ⟨by simp [hlen], e', he', ?_⟩
          have hidx : rem + 1 - 1 = (rem - 1) + 1 := by omega
          rw [hidx]
          simpa using hout
        · rw [if_neg hc]
          have hrem : rem = 0 := by omega
          subst hrem
          have hlast : max_retries - 1 = max_retries - (0 + 1) := by omega
          refine ⟨rfl, e, rfl, ?_⟩
          rw [hlast]
          simp only [List.getD, List.get?, Option.getD]
          simp only [outcomeError.eq_def, hp, hv]
    | err e =>
      simp only [hp]
      by_cases hc : max_retries - (rem + 1) < max_retries - 1
      · rw [if_pos hc]
        have hrem : 0 < rem := by omega
        obtain ⟨hlen, e', he', hout⟩ := ih (messages ++ retryTurns extracted e)
          extracted hrem (by omega)
        refine ⟨by simp [hlen], e', he', ?_⟩
        have hidx : rem + 1 - 1 = (rem - 1) + 1 := by omega
        rw [hidx]
        simpa using hout
      · rw [if_neg hc]
        have hrem : rem = 0 := by omega
        subst hrem
        have hlast : max_retries - 1 = max_retries - (0 + 1) := by omega
        refine ⟨rfl, e, rfl, ?_⟩
        rw [hlast]
        simp only [List.getD, List.get?, Option.getD]
        simp only [outcomeError.eq_def, hp]

theorem extractLoop_transcripts (provider : Nat → List Message → ProviderResult)
    (init : List Message) (max_retries : Nat) :
    ∀ remaining a, a + remaining = max_retries →
      (∀ i, i < ((extractLoop provider max_retries remaining
            (attemptState provider init a).1 (attemptState provider init a).2).2).length →
        ((extractLoop provider max_retries remaining
            (attemptState provider init a).1 (attemptState provider init a).2).2).getD i []
          = (attemptState provider init (a + i)).1) ∧
      (∀ i, i + 1 < ((extractLoop provider max_retries remaining
            (attemptState provider init a).1 (attemptState provider init a).2).2).length →
        isFailOutcome (provider (a + i) (attemptState provider init (a + i)).1) = true) := by
  intro remaining
  induction remaining with
  | zero =>
    intro a ha
    constructor
    · intro i hi
      simp [extractLoop] at hi
    · intro i hi
      simp [extractLoop] at hi
  | succ rem ih =>
    intro a ha
    have hattempt : max_retries - (rem + 1) = a := by omega
    unfold extractLoop
    rw [hattempt]
    cases hp : provider a (attemptState provider init a).1 with
    | payload j =>
      simp only [hp]
      cases hv : FieldDocument.model_validate j with
      | ok d =>
        simp only [hv]
        constructor
        · intro i hi
          simp only [List.length_cons, List.length_nil] at hi
          interval_cases i
          simp
        · intro i hi
          simp only [List.length_cons, List.length_nil] at hi
          omega
      | error e =>
        simp only [hv]
        by_cases hc : a < max_retries - 1
        · rw [if_pos hc]
          have hstep : attemptState provider init (a + 1)
              = ((attemptState provider init a).1 ++ retryTurns (some j) e, some j) := by
            show stepState provider a (attemptState provider init a) = _
            simp only [stepState, hp, hv]
          obtain ⟨ih1, ih2⟩ := ih (a + 1) (by omega)
          rw [hstep] at ih1 ih2
          constructor
          · intro i hi
            cases i with
            | zero => simp
            | succ i' =>
              simp only [List.length_cons] at hi
              have hi' : i' < ((extractLoop provider max_retries rem
                  ((attemptState provider init a).1 ++ retryTurns (some j) e) (some j)).2).length := by
                simpa using hi
              have harith : a + (i' + 1) = a + 1 + i' := by omega
              rw [harith]
              simp only [List.getD_cons_succ]
              exact ih1 i' hi'
          · intro i hi
            cases i with
            | zero =>
              simp only [Nat.add_zero]
              simp only [isFailOutcome.eq_def, hp, hv]
              rfl
            | succ i' =>
              simp only [List.length_cons] at hi
              have hi' : i' + 1 < ((extractLoop provider max_retries rem
                  ((attemptState provider init a).1 ++ retryTurns (some j) e) (some j)).2).length := by
                omega
              have := ih2 i' hi'
              have harith : a + (i' + 1) = a + 1 + i' := by omega
              rw [harith]
              exact this
        · rw [if_neg hc]
          constructor
          · intro i hi
            simp only [List.length_cons, List.length_nil] at hi
            interval_cases i
            simp
          · intro i hi
            simp only [List.length_cons, List.length_nil] at hi
            omega
    | err e =>
      simp only [hp]
      by_cases hc : a < max_retries - 1
      · rw [if_pos hc]
        have hstep : attemptState provider init (a + 1)
            = ((attemptState provider init a).1 ++ retryTurns (attemptState provider init a).2 e,
               (attemptState provider init a).2) := by
          show stepState provider a (attemptState provider init a) = _
          simp only [stepState, hp]
        obtain ⟨ih1, ih2⟩ := ih (a + 1) (by omega)
        rw [hstep] at ih1 ih2
        constructor
        · intro i hi
          cases i with
          | zero => simp
          | succ i' =>
            simp only [List.length_cons] at hi
            have hi' : i' < ((extractLoop provider max_retries rem
                ((attemptState provider init a).1 ++ retryTurns (attemptState provider init a).2 e)
                (attemptState provider init a).2).2).length := by
              simpa using hi
            have harith : a + (i' + 1) = a + 1 + i' := by omega
            rw [harith]
            simp only [List.getD_cons_succ]
            exact ih1 i' hi'
        · intro i hi
          cases i with
          | zero =>
            simp only [Nat.add_zero]
            simp only [isFailOutcome.eq_def, hp]
          | succ i' =>
            simp only [List.length_cons] at hi
            have hi' : i' + 1 < ((extractLoop provider max_retries rem
                ((attemptState provider init a).1 ++ retryTurns (attemptState provider init a).2 e)
                (attemptState provider init a).2).2).length := by
              omega
            have := ih2 i' hi'
            have harith : a + (i' + 1) = a + 1 + i' := by omega
            rw [harith]
            exact this
      · rw [if_neg hc]
        constructor
        · intro i hi
          simp only [List.length_cons, List.length_nil] at hi
          interval_cases i
          simp
        · intro i hi
          simp only [List.length_cons, List.length_nil] at hi
          omega

theorem attemptState_snd_eq_lastPayload
    (provider : Nat → List Message → ProviderResult) (init : List Message)
    (ts : List (List Message)) :
    ∀ i, (∀ k, k < i → ts.getD k [] = (attemptState provider init k).1 ∧
          isFailOutcome (provider k (ts.getD k [])) = true) →
      (attemptState provider init i).2 = lastPayloadOutcome provider ts i := by
  intro i
  induction i with
  | zero => intro _; rfl
  | succ i ih =>
    intro h
    obtain ⟨h1, h2⟩ := h i (by omega)
    have hrec : (attemptState provider init i).2 = lastPayloadOutcome provider ts i :=
      ih (fun k hk => h k (by omega))
    rw [h1] at h2
    show (stepState provider i (attemptState provider init i)).2 = _
    cases hp : provider i ((attemptState provider init i).1) with
    | payload j =>
      rw [hp] at h2
      cases hv : FieldDocument.model_validate j with
      | ok d =>
        rw [isFailOutcome] at h2
        rw [hv] at h2
        simp [validationPasses] at h2
      | error e =>
        simp only [stepState, hp, hv]
        simp only [lastPayloadOutcome, h1, hp]
    | err e =>
      simp only [stepState, hp]
      simp only [lastPayloadOutcome, h1, hp]
      exact hrec

theorem run_transcripts (stored : List (String × Json)) (env : Option String)
    (provider : Nat → List Message → ProviderResult) (image_b64 : String)
    (max_retries : Nat) (henv : get_openai_client env = Except.ok ()) :
    (extract_document_data stored env provider image_b64 max_retries).transcripts
      = (extractLoop provider max_retries max_retries
          (initialMessages image_b64) none).2 := by
  unfold extract_document_data
  rw [henv]

theorem run_result (stored : List (String × Json)) (env : Option String)
    (provider : Nat → List Message → ProviderResult) (image_b64 : String)
    (max_retries : Nat) (henv : get_openai_client env = Except.ok ()) :
    (extract_document_data stored env provider image_b64 max_retries).result
      = (extractLoop provider max_retries max_retries
          (initialMessages image_b64) none).1 := by
  unfold extract_document_data
  rw [henv]

theorem run_transcripts_closed (provider : Nat → List Message → ProviderResult)
    (init : List Message) (max_retries : Nat) :
    (∀ i, i < ((extractLoop provider max_retries max_retries init none).2).length →
      ((extractLoop provider max_retries max_retries init none).2).getD i []
        = (attemptState provider init i).1) ∧
    (∀ i, i + 1 < ((extractLoop provider max_retries max_retries init none).2).length →
      isFailOutcome (provider i (attemptState provider init i).1) = true) := by
  have h := extractLoop_transcripts provider init max_retries max_retries 0 (by omega)
  simp only [attemptState, Nat.zero_add] at h
  exact h

theorem extractLoop_step_success (provider : Nat → List Message → ProviderResult)
    (mr rem : Nat) (msgs : List Message) (ext : Option Json) (j : Json)
    (d : FieldDocument)
    (hp : provider (mr - (rem + 1)) msgs = ProviderResult.payload j)
    (hv : FieldDocument.model_validate j = Except.ok d) :
    extractLoop provider mr (rem + 1) msgs ext
      = (EngineResult.success d, [msgs]) := by
  unfold extractLoop
  simp only [hp, hv]

theorem extractLoop_step_payload_error (provider : Nat → List Message → ProviderResult)
    (mr rem : Nat) (msgs : List Message) (ext : Option Json) (j : Json) (e : String)
    (hp : provider (mr - (rem + 1)) msgs = ProviderResult.payload j)
    (hv : FieldDocument.model_validate j = Except.error e)
    (hc : mr - (rem + 1) < mr - 1) :
    extractLoop provider mr (rem + 1) msgs ext
      = ((extractLoop provider mr rem (msgs ++ retryTurns (some j) e) (some j)).1,
         msgs :: (extractLoop provider mr rem (msgs ++ retryTurns (some j) e) (some j)).2) := by
  conv_lhs => rw [extractLoop]
  simp only [hp, hv]
  rw [if_pos hc]

theorem extractLoop_step_err (provider : Nat → List Message → ProviderResult)
    (mr rem : Nat) (msgs : List Message) (ext : Option Json) (e : String)
    (hp : provider (mr - (rem + 1)) msgs = ProviderResult.err e)
    (hc : mr - (rem + 1) < mr - 1) :
    extractLoop provider mr (rem + 1) msgs ext
      = ((extractLoop provider mr rem (msgs ++ retryTurns ext e) ext).1,
         msgs :: (extractLoop provider mr rem (msgs ++ retryTurns ext e) ext).2) := by
  conv_lhs => rw [extractLoop]
  simp only [hp]
  rw [if_pos hc]

theorem run_schemaSent (stored : List (String × Json)) (env : Option String)
    (provider : Nat → List Message → ProviderResult) (image_b64 : String)
    (max_retries : Nat) :
    (extract_document_data stored env provider image_b64 max_retries).schemaSent
      = loadSchema stored := by
  unfold extract_document_data
  cases get_openai_client env with
  | error e => rfl
  | ok v => rfl

theorem resultFiles_engine (stored : List (String × Json)) (env : Option String)
    (provider : Nat → List Message → ProviderResult) (image_b64 : String)
    (max_retries : Nat) :
    resultFiles (extract_document_data stored env provider image_b64 max_retries).events
      = [] := by
  unfold extract_document_data
  cases get_openai_client env with
  | error e => rfl
  | ok v =>
    simp only [resultFiles, List.filterMap_append]
    rw [List.filterMap_map]
    simp [Function.comp]

theorem get_result_single (fid : String) (rec : ResultRecord) :
    get_result [(fid, rec)] fid = Except.ok rec := by
  simp [get_result, List.find?]

theorem schemaReadCount_providerCalls (n : Nat) :
    ((List.range n).map Event.providerCall).countP isSchemaRead = 0 := by
  rw [List.countP_eq_zero]
  intro a ha
  rw [List.mem_map] at ha
  obtain ⟨k, _, rfl⟩ := ha
  simp [isSchemaRead]

/-- C3: for every record type of the Document model (FieldDocument,
BargeInfo, PortInfo, ArrivalDeparture, TankCondition, ProductTotals,
Timestamps, Drafts), validating an input object that contains any field not
declared in the schema yields a validation error; extra fields are never
silently dropped. -/
theorem C3_extra_fields_rejected (fs : List (String × Json)) (k : String)
    (v : Json) (hmem : (k, v) ∈ fs) :
    (FieldDocument.declared.contains k = false →
      validationPasses (FieldDocument.model_validate (Json.obj fs)) = false) ∧
    (BargeInfo.declared.contains k = false →
      validationPasses (BargeInfo.model_validate (Json.obj fs)) = false) ∧
    (PortInfo.declared.contains k = false →
      validationPasses (PortInfo.model_validate (Json.obj fs)) = false) ∧
    (ArrivalDeparture.declared.contains k = false →
      validationPasses (ArrivalDeparture.model_validate (Json.obj fs)) = false) ∧
    (TankCondition.declared.contains k = false →
      validationPasses (TankCondition.model_validate (Json.obj fs)) = false) ∧
    (ProductTotals.declared.contains k = false →
      validationPasses (ProductTotals.model_validate (Json.obj fs)) = false) ∧
    (Timestamps.declared.contains k = false →
      validationPasses (Timestamps.model_validate (Json.obj fs)) = false) ∧
    (Drafts.declared.contains k = false →
      validationPasses (Drafts.model_validate (Json.obj fs)) = false) :=
  ⟨fun hk => validateClosed_extra _ _ fs k v hmem hk,
   fun hk => validateClosed_extra _ _ fs k v hmem hk,
   fun hk => validateClosed_extra _ _ fs k v hmem hk,
   fun hk => validateClosed_extra _ _ fs k v hmem hk,
   fun hk => validateClosed_extra _ _ fs k v hmem hk,
   fun hk => validateClosed_extra _ _ fs k v hmem hk,
   fun hk => validateClosed_extra _ _ fs k v hmem hk,
   fun hk => validateClosed_extra _ _ fs k v hmem hk⟩

/-- Witness for C3: a concrete object whose only key is undeclared is
rejected by all eight record validators. -/
theorem C3_extra_fields_rejected_witness :
    validationPasses (FieldDocument.model_validate (Json.obj [("bogus", Json.null)])) = false ∧
    validationPasses (BargeInfo.model_validate (Json.obj [("bogus", Json.null)])) = false ∧
    validationPasses (PortInfo.model_validate (Json.obj [("bogus", Json.null)])) = false ∧
    validationPasses (ArrivalDeparture.model_validate (Json.obj [("bogus", Json.null)])) = false ∧
    validationPasses (TankCondition.model_validate (Json.obj [("bogus", Json.null)])) = false ∧
    validationPasses (ProductTotals.model_validate (Json.obj [("bogus", Json.null)])) = false ∧
    validationPasses (Timestamps.model_validate (Json.obj [("bogus", Json.null)])) = false ∧
    validationPasses (Drafts.model_validate (Json.obj [("bogus", Json.null)])) = false := by
  have h := C3_extra_fields_rejected [("bogus", Json.null)] "bogus" Json.null (by simp)
  exact ⟨h.1 (by decide), h.2.1 (by decide), h.2.2.1 (by decide),
         h.2.2.2.1 (by decide), h.2.2.2.2.1 (by decide), h.2.2.2.2.2.1 (by decide),
         h.2.2.2.2.2.2.1 (by decide), h.2.2.2.2.2.2.2 (by decide)⟩

/-- C4: the schema produced by the load step always carries the
additionalProperties flag forced to false, regardless of what the
stored schema resource says, both as loaded and as attached to the outbound
requests of any extraction call. -/
theorem C4_additional_properties_forced (stored : List (String × Json))
    (env : Option String) (provider : Nat → List Message → ProviderResult)
    (image_b64 : String) (max_retries : Nat) :
    findField (loadSchema stored) "additionalProperties"
        = some (Json.bool false) ∧
    findField ((extract_document_data stored env provider image_b64
        max_retries).schemaSent) "additionalProperties"
        = some (Json.bool false) := by
  constructor
  · exact findField_setKey stored "additionalProperties" (Json.bool false)
  · rw [run_schemaSent]
    exact findField_setKey stored "additionalProperties" (Json.bool false)

/-- C5 (amended): every call of extract_document_data reads the schema
resource exactly once; the schema is re-read on every extraction call
rather than cached process-wide. -/
theorem C5_schema_read_once_per_call (stored : List (String × Json))
    (env : Option String) (provider : Nat → List Message → ProviderResult)
    (image_b64 : String) (max_retries : Nat) :
    schemaReadCount
      (extract_document_data stored env provider image_b64 max_retries).events
      = 1 := by
  unfold extract_document_data
  cases get_openai_client env with
  | error e => rfl
  | ok v =>
    simp only [schemaReadCount, List.countP_append, List.countP_cons]
    rw [schemaReadCount_providerCalls]
    rfl

/-- C5 counterexample: a process that performs two extraction calls reads
the schema resource twice; it is not loaded exactly once per process, the
second call re-reads it instead of using cached state. -/
theorem C5_counterexample_process_rereads :
    schemaReadCount
      ((extract_document_data [] (some "key")
          (fun _ _ => ProviderResult.err "transport failure") "img" 3).events
        ++ (extract_document_data [] (some "key")
          (fun _ _ => ProviderResult.err "transport failure") "img" 3).events) = 2 ∧
    schemaReadCount
      ((extract_document_data [] (some "key")
          (fun _ _ => ProviderResult.err "transport failure") "img" 3).events
        ++ (extract_document_data [] (some "key")
          (fun _ _ => ProviderResult.err "transport failure") "img" 3).events) ≠ 1 := by
  constructor
  · rfl
  · decide

/-- C6: when the credential is absent from the environment, the extraction
call fails with the missing-credential error, no provider call is made (the
transcripts are empty and the only events are the schema and image reads
that precede client initialization), and the health endpoint still answers
its fixed body. -/
theorem C6_missing_credential (stored : List (String × Json))
    (env : Option String) (provider : Nat → List Message → ProviderResult)
    (image_b64 : String) (max_retries : Nat) (henv : env = none) :
    (extract_document_data stored env provider image_b64 max_retries).result
      = EngineResult.failure "OPENAI_API_KEY environment variable is not set" ∧
    (extract_document_data stored env provider image_b64 max_retries).transcripts
      = [] ∧
    (extract_document_data stored env provider image_b64 max_retries).events
      = [Event.readSchemaResource, Event.readImage] ∧
    health_check env = [("status", Json.str "healthy")] := by
  subst henv
  exact ⟨rfl, rfl, rfl, rfl⟩

/-- Witness for C6 at concrete inputs with the credential unset. -/
theorem C6_missing_credential_witness :
    (extract_document_data [] none (fun _ _ => ProviderResult.err "x") "img" 3).result
      = EngineResult.failure "OPENAI_API_KEY environment variable is not set" ∧
    (extract_document_data [] none (fun _ _ => ProviderResult.err "x") "img" 3).transcripts
      = [] :=
  ⟨(C6_missing_credential [] none (fun _ _ => ProviderResult.err "x") "img" 3 rfl).1,
   (C6_missing_credential [] none (fun _ _ => ProviderResult.err "x") "img" 3 rfl).2.1⟩

/-- C7: an upload whose declared media type is not an image type is
rejected with a 400 client error before anything happens: no image file is
written, no provider call is made, and no result file is created. -/
theorem C7_unsupported_media_type (stored : List (String × Json))
    (env : Option String) (provider : Nat → List Message → ProviderResult)
    (file : UploadFile) (file_id now : String)
    (h : strStartsWith file.content_type "image/" = false) :
    upload_document stored env provider file file_id now
      = (UploadResponse.httpError 400 "Only image files are accepted", []) := by
  unfold upload_document
  rw [h]
  rfl

/-- Witness for C7: a text/plain upload is rejected with no events. -/
theorem C7_unsupported_media_type_witness :
    upload_document [] (some "key") (fun _ _ => ProviderResult.err "x")
      { filename := "notes.txt", content_type := "text/plain", content_b64 := "p" }
      "id1" "2024-01-01T00:00:00"
      = (UploadResponse.httpError 400 "Only image files are accepted", []) :=
  C7_unsupported_media_type [] (some "key") (fun _ _ => ProviderResult.err "x")
    { filename := "notes.txt", content_type := "text/plain", content_b64 := "p" }
    "id1" "2024-01-01T00:00:00" rfl

/-- C9: calling extract_document_data with max_retries equal to 0 skips the
loop body entirely and the function implicitly returns python None, neither
a validated document nor a raised error; for every positive bound the
all-or-nothing contract holds and None is never returned. -/
theorem C9_zero_retries_returns_none (stored : List (String × Json))
    (env : Option String) (provider : Nat → List Message → ProviderResult)
    (image_b64 : String) (henv : get_openai_client env = Except.ok ()) :
    (extract_document_data stored env provider image_b64 0).result
        = EngineResult.noneReturned ∧
    (extract_document_data stored env provider image_b64 0).transcripts = [] ∧
    ∀ max_retries, 0 < max_retries →
      (extract_document_data stored env provider image_b64 max_retries).result
        ≠ EngineResult.noneReturned := by
  refine ⟨?_, ?_, ?_⟩
  · rw [run_result _ _ _ _ _ henv]
    rfl
  · rw [run_transcripts _ _ _ _ _ henv]
    rfl
  · intro max_retries hmr
    rw [run_result _ _ _ _ _ henv]
    exact extractLoop_ne_none provider max_retries max_retries
      (initialMessages image_b64) none hmr

/-- Witness for C9 at concrete inputs with a configured credential. -/
theorem C9_zero_retries_returns_none_witness :
    (extract_document_data [] (some "key") (fun _ _ => ProviderResult.err "x") "img" 0).result
      = EngineResult.noneReturned ∧
    (extract_document_data [] (some "key") (fun _ _ => ProviderResult.err "x") "img" 3).result
      ≠ EngineResult.noneReturned := by
  have h := C9_zero_retries_returns_none [] (some "key")
    (fun _ _ => ProviderResult.err "x") "img" rfl
  exact ⟨h.1, h.2.2 3 (by decide)⟩

/-- C1: with the default bound max_retries = 3, if every inference attempt
fails (non-conforming payload or provider error) the engine performs exactly
3 attempts and then surfaces the last encountered error as a terminal
failure, never returning a document; and if attempts 1 and 2 fail while
attempt 3 yields schema-valid output, the engine returns the validated
document after exactly 3 attempts. -/
theorem C1_retry_bound (stored : List (String × Json)) (env : Option String)
    (provider : Nat → List Message → ProviderResult) (image_b64 : String)
    (henv : get_openai_client env = Except.ok ()) :
    ((∀ k m, isFailOutcome (provider k m) = true) →
      (extract_document_data stored env provider image_b64 3).transcripts.length = 3 ∧
      (∃ e, (extract_document_data stored env provider image_b64 3).result
            = EngineResult.failure e ∧
        outcomeError (provider 2
          ((extract_document_data stored env provider image_b64 3).transcripts.getD 2 []))
          = some e) ∧
      (∀ d, (extract_document_data stored env provider image_b64 3).result
          ≠ EngineResult.success d)) ∧
    ((∀ m, isFailOutcome (provider 0 m) = true) →
     (∀ m, isFailOutcome (provider 1 m) = true) →
     (∀ m, isFailOutcome (provider 2 m) = false) →
      (extract_document_data stored env provider image_b64 3).transcripts.length = 3 ∧
      ∃ d, (extract_document_data stored env provider image_b64 3).result
          = EngineResult.success d) := by
  constructor
  · intro hfail
    obtain ⟨hlen, e, he, hout⟩ := extractLoop_exhaust provider 3 hfail 3
      (initialMessages image_b64) none (by omega) (by omega)
    rw [run_transcripts _ _ _ _ _ henv, run_result _ _ _ _ _ henv]
    refine ⟨hlen, ⟨e, he, ?_⟩, ?_⟩
    · exact hout
    · intro d hd
      rw [he] at hd
      exact EngineResult.noConfusion hd
  · intro h0 h1 h2
    rw [run_transcripts _ _ _ _ _ henv, run_result _ _ _ _ _ henv]
    have hstep : ∀ (rem : Nat) (m : List Message) (ext : Option Json),
        (∀ mm, isFailOutcome (provider (3 - (rem + 1)) mm) = true) →
        3 - (rem + 1) < 3 - 1 →
        ∃ m' ext', extractLoop provider 3 (rem + 1) m ext
          = ((extractLoop provider 3 rem m' ext').1,
             m :: (extractLoop provider 3 rem m' ext').2) := by
      intro rem m ext hk hc
      cases hp : provider (3 - (rem + 1)) m with
      | payload j =>
        have hf := hk m
        rw [hp] at hf
        rw [isFailOutcome] at hf
        cases hv : FieldDocument.model_validate j with
        | ok d =>
          rw [hv] at hf
          simp [validationPasses] at hf
        | error e =>
          exact ⟨m ++ retryTurns (some j) e, some j,
            extractLoop_step_payload_error provider 3 rem m ext j e hp hv hc⟩
      | err e =>
        exact ⟨m ++ retryTurns ext e, ext,
          extractLoop_step_err provider 3 rem m ext e hp hc⟩
    obtain ⟨m1, x1, hs0⟩ := hstep 2 (initialMessages image_b64) none h0 (by norm_num)
    obtain ⟨m2, x2, hs1⟩ := hstep 1 m1 x1 h1 (by norm_num)
    have hf2 := h2 m2
    cases hp2 : provider 2 m2 with
    | err e =>
      rw [hp2] at hf2
      rw [isFailOutcome] at hf2
      exact absurd hf2 (by simp)
    | payload j2 =>
      rw [hp2] at hf2
      rw [isFailOutcome] at hf2
      cases hv2 : FieldDocument.model_validate j2 with
      | error e2 =>
        rw [hv2] at hf2
        simp [validationPasses] at hf2
      | ok d2 =>
        have hs2 := extractLoop_step_success provider 3 0 m2 x2 j2 d2 hp2 hv2
        rw [show extractLoop provider 3 3 (initialMessages image_b64) none
            = extractLoop provider 3 (2 + 1) (initialMessages image_b64) none from rfl]
        rw [hs0]
        rw [show extractLoop provider 3 2 m1 x1
            = extractLoop provider 3 (1 + 1) m1 x1 from rfl]
        rw [hs1]
        rw [show extractLoop provider 3 1 m2 x2
            = extractLoop provider 3 (0 + 1) m2 x2 from rfl]
        rw [hs2]
        exact ⟨by simp, d2, by simp⟩

/-- Witness for C1: a provider that always errors exhausts the three
attempts and surfaces the last error; a provider that errors twice and then
returns a fully valid payload succeeds on the third attempt. -/
theorem C1_retry_bound_witness :
    ((extract_document_data [] (some "key")
        (fun _ _ => ProviderResult.err "boom") "img" 3).transcripts.length = 3 ∧
      (∃ e, (extract_document_data [] (some "key")
            (fun _ _ => ProviderResult.err "boom") "img" 3).result
          = EngineResult.failure e)) ∧
    ((extract_document_data [] (some "key")
        (fun k _ => if k < 2 then ProviderResult.err "boom"
                    else ProviderResult.payload sampleDocJson) "img" 3).transcripts.length = 3 ∧
      ∃ d, (extract_document_data [] (some "key")
          (fun k _ => if k < 2 then ProviderResult.err "boom"
                      else ProviderResult.payload sampleDocJson) "img" 3).result
        = EngineResult.success d) := by
  constructor
  · have h := (C1_retry_bound [] (some "key")
        (fun _ _ => ProviderResult.err "boom") "img" rfl).1 (fun k m => rfl)
    exact ⟨h.1, h.2.1.elim (fun e he => ⟨e, he.1⟩)⟩
  · exact (C1_retry_bound [] (some "key")
        (fun k _ => if k < 2 then ProviderResult.err "boom"
                    else ProviderResult.payload sampleDocJson) "img" rfl).2
      (fun m => rfl) (fun m => rfl) (fun m => rfl)

/-- C2: whenever attempt n fails validation with error text e and another
attempt is performed, the conversation sent on attempt n+1 is exactly the
previous conversation extended with an assistant turn echoing the failed
payload and a new user turn whose text is the fix instruction followed by
the validation error text verbatim. -/
theorem C2_corrective_context (stored : List (String × Json))
    (env : Option String) (provider : Nat → List Message → ProviderResult)
    (image_b64 : String) (max_retries n : Nat) (j : Json) (e : String)
    (henv : get_openai_client env = Except.ok ())
    (hn : n + 1 < (extract_document_data stored env provider image_b64
        max_retries).transcripts.length)
    (hp : provider n ((extract_document_data stored env provider image_b64
        max_retries).transcripts.getD n []) = ProviderResult.payload j)
    (hv : FieldDocument.model_validate j = Except.error e) :
    (extract_document_data stored env provider image_b64
        max_retries).transcripts.getD (n + 1) []
      = (extract_document_data stored env provider image_b64
          max_retries).transcripts.getD n []
        ++ [{ role := Role.assistant, content := Content.payload j },
            { role := Role.user,
              content := Content.text
                ("Please fix error and capture all data: " ++ e) }] := by
  rw [run_transcripts _ _ _ _ _ henv] at hn hp ⊢
  obtain ⟨hts, _⟩ := run_transcripts_closed provider (initialMessages image_b64)
    max_retries
  have hgn := hts n (by omega)
  have hgn1 := hts (n + 1) hn
  rw [hgn] at hp
  rw [hgn1, hgn]
  show (stepState provider n (attemptState provider (initialMessages image_b64) n)).1
    = _
  simp only [stepState, hp, hv]
  simp [retryTurns, attemptContent, fixInstruction]

/-- Witness for C2: attempt 0 returns a payload with an undeclared field,
and attempt 1 is sent that object back with the validation error verbatim. -/
theorem C2_corrective_context_witness :
    (extract_document_data [] (some "key")
        (fun k _ => if k = 0 then ProviderResult.payload (Json.obj [("bogus", Json.null)])
                    else ProviderResult.err "boom") "img" 3).transcripts.getD 1 []
      = (extract_document_data [] (some "key")
          (fun k _ => if k = 0 then ProviderResult.payload (Json.obj [("bogus", Json.null)])
                      else ProviderResult.err "boom") "img" 3).transcripts.getD 0 []
        ++ [{ role := Role.assistant,
              content := Content.payload (Json.obj [("bogus", Json.null)]) },
            { role := Role.user,
              content := Content.text
                ("Please fix error and capture all data: "
                  ++ "Extra inputs are not permitted: bogus") }] :=
  C2_corrective_context [] (some "key")
    (fun k _ => if k = 0 then ProviderResult.payload (Json.obj [("bogus", Json.null)])
                else ProviderResult.err "boom") "img" 3 0
    (Json.obj [("bogus", Json.null)]) "Extra inputs are not permitted: bogus"
    rfl (by decide) rfl rfl

/-- C10: because the variable holding the last received payload is assigned
only when a provider response arrives and never reset between attempts,
when attempt i fails with a provider error before any payload is received
in that attempt, the assistant turn appended before attempt i+1 carries the
payload of the most recent earlier attempt that produced one, or the empty
string if no attempt has yet produced a payload. -/
theorem C10_provider_error_echoes_stale_payload (stored : List (String × Json))
    (env : Option String) (provider : Nat → List Message → ProviderResult)
    (image_b64 : String) (max_retries i : Nat) (e : String)
    (henv : get_openai_client env = Except.ok ())
    (hi : i + 1 < (extract_document_data stored env provider image_b64
        max_retries).transcripts.length)
    (hp : provider i ((extract_document_data stored env provider image_b64
        max_retries).transcripts.getD i []) = ProviderResult.err e) :
    (extract_document_data stored env provider image_b64
        max_retries).transcripts.getD (i + 1) []
      = (extract_document_data stored env provider image_b64
          max_retries).transcripts.getD i []
        ++ [{ role := Role.assistant,
              content := attemptContent (lastPayloadOutcome provider
                ((extract_document_data stored env provider image_b64
                  max_retries).transcripts) i) },
            { role := Role.user,
              content := Content.text
                ("Please fix error and capture all data: " ++ e) }] := by
  rw [run_transcripts _ _ _ _ _ henv] at hi hp ⊢
  obtain ⟨hts, hfails⟩ := run_transcripts_closed provider
    (initialMessages image_b64) max_retries
  have hgn := hts i (by omega)
  have hgn1 := hts (i + 1) hi
  rw [hgn] at hp
  have hsnd : (attemptState provider (initialMessages image_b64) i).2
      = lastPayloadOutcome provider
          ((extractLoop provider max_retries max_retries
            (initialMessages image_b64) none).2) i := by
    refine attemptState_snd_eq_lastPayload provider (initialMessages image_b64)
      _ i (fun k hk => ⟨hts k (by omega), ?_⟩)
    rw [hts k (by omega)]
    exact hfails k (by omega)
  rw [hgn1, hgn]
  show (stepState provider i (attemptState provider (initialMessages image_b64) i)).1
    = _
  simp only [stepState, hp]
  rw [hsnd]
  simp [retryTurns, fixInstruction]

/-- Witness for C10: attempt 0 returns an invalid payload, attempt 1 fails
with a transport error, and the assistant turn sent before attempt 2 echoes
the stale payload of attempt 0. -/
theorem C10_provider_error_echoes_stale_payload_witness :
    (extract_document_data [] (some "key")
        (fun k _ => if k = 0 then ProviderResult.payload (Json.obj [("bogus", Json.null)])
                    else ProviderResult.err "boom") "img" 3).transcripts.getD 2 []
      = (extract_document_data [] (some "key")
          (fun k _ => if k = 0 then ProviderResult.payload (Json.obj [("bogus", Json.null)])
                      else ProviderResult.err "boom") "img" 3).transcripts.getD 1 []
        ++ [{ role := Role.assistant,
              content := attemptContent (lastPayloadOutcome
                (fun k _ => if k = 0 then ProviderResult.payload (Json.obj [("bogus", Json.null)])
                            else ProviderResult.err "boom")
                ((extract_document_data [] (some "key")
                  (fun k _ => if k = 0 then ProviderResult.payload (Json.obj [("bogus", Json.null)])
                              else ProviderResult.err "boom") "img" 3).transcripts) 1) },
            { role := Role.user,
              content := Content.text
                ("Please fix error and capture all data: " ++ "boom") }] :=
  C10_provider_error_echoes_stale_payload [] (some "key")
    (fun k _ => if k = 0 then ProviderResult.payload (Json.obj [("bogus", Json.null)])
                else ProviderResult.err "boom") "img" 3 1 "boom"
    rfl (by decide) rfl

/-- C8: for every accepted upload, when extraction succeeds a result file
of shape id, filename, processed_at, data is written and is served by the
result endpoint; when extraction fails no result file is written and the
result endpoint answers 404 for that identifier. -/
theorem C8_result_file_iff_success (stored : List (String × Json))
    (env : Option String) (provider : Nat → List Message → ProviderResult)
    (file : UploadFile) (file_id now : String)
    (himg : strStartsWith file.content_type "image/" = true) :
    (∀ d, (extract_document_data stored env provider file.content_b64 3).result
        = EngineResult.success d →
      upload_document stored env provider file file_id now
        = (UploadResponse.completed file_id d,
           Event.writeImageFile file_id
             :: (extract_document_data stored env provider file.content_b64 3).events
             ++ [Event.writeResultFile file_id file.filename now d]) ∧
      get_result (resultFiles
          (upload_document stored env provider file file_id now).2) file_id
        = Except.ok { id := file_id, filename := file.filename,
                      processed_at := now, data := d }) ∧
    (∀ e, (extract_document_data stored env provider file.content_b64 3).result
        = EngineResult.failure e →
      upload_document stored env provider file file_id now
        = (UploadResponse.errorResponse file_id e,
           Event.writeImageFile file_id
             :: (extract_document_data stored env provider file.content_b64 3).events) ∧
      resultFiles (upload_document stored env provider file file_id now).2 = [] ∧
      get_result (resultFiles
          (upload_document stored env provider file file_id now).2) file_id
        = Except.error (404, "Result not found")) := by
  have hrf := resultFiles_engine stored env provider file.content_b64 3
  constructor
  · intro d hd
    have hup : upload_document stored env provider file file_id now
        = (UploadResponse.completed file_id d,
           Event.writeImageFile file_id
             :: (extract_document_data stored env provider file.content_b64 3).events
             ++ [Event.writeResultFile file_id file.filename now d]) := by
      unfold upload_document
      rw [himg]
      simp only [Bool.not_true, Bool.false_eq_true, if_false]
      rw [hd]
    refine ⟨hup, ?_⟩
    rw [hup]
    simp only [resultFiles] at hrf
    have hlist : resultFiles
        (Event.writeImageFile file_id
          :: (extract_document_data stored env provider file.content_b64 3).events
          ++ [Event.writeResultFile file_id file.filename now d])
        = [(file_id, { id := file_id, filename := file.filename,
                       processed_at := now, data := d })] := by
      simp only [resultFiles, List.filterMap_cons, List.filterMap_append, hrf,
        List.filterMap_nil, List.nil_append]
    rw [hlist]
    exact get_result_single file_id
      { id := file_id, filename := file.filename, processed_at := now, data := d }
  · intro e he
    have hup : upload_document stored env provider file file_id now
        = (UploadResponse.errorResponse file_id e,
           Event.writeImageFile file_id
             :: (extract_document_data stored env provider file.content_b64 3).events) := by
      unfold upload_document
      rw [himg]
      simp only [Bool.not_true, Bool.false_eq_true, if_false]
      rw [he]
    have hempty : resultFiles
        (upload_document stored env provider file file_id now).2 = [] := by
      rw [hup]
      simp only [resultFiles] at hrf
      simp only [resultFiles, List.filterMap_cons, hrf]
    refine ⟨hup, hempty, ?_⟩
    rw [hempty]
    rfl

/-- Witness for C8: a provider that always errors leaves no result file
and the result endpoint answers 404; a provider returning a valid payload
persists the result record and the result endpoint serves it. -/
theorem C8_result_file_iff_success_witness :
    (resultFiles (upload_document [] (some "key")
        (fun _ _ => ProviderResult.err "boom")
        { filename := "doc.png", content_type := "image/png", content_b64 := "img" }
        "id1" "2024-01-01T00:00:00").2 = [] ∧
      get_result (resultFiles (upload_document [] (some "key")
        (fun _ _ => ProviderResult.err "boom")
        { filename := "doc.png", content_type := "image/png", content_b64 := "img" }
        "id1" "2024-01-01T00:00:00").2) "id1"
        = Except.error (404, "Result not found")) ∧
    get_result (resultFiles (upload_document [] (some "key")
        (fun _ _ => ProviderResult.payload sampleDocJson)
        { filename := "doc.png", content_type := "image/png", content_b64 := "img" }
        "id1" "2024-01-01T00:00:00").2) "id1"
      = Except.ok { id := "id1", filename := "doc.png",
                    processed_at := "2024-01-01T00:00:00", data := sampleDoc } := by
  constructor
  · have h := (C8_result_file_iff_success [] (some "key")
        (fun _ _ => ProviderResult.err "boom")
        { filename := "doc.png", content_type := "image/png", content_b64 := "img" }
        "id1" "2024-01-01T00:00:00" rfl).2 "boom" rfl
    exact ⟨h.2.1, h.2.2⟩
  · exact ((C8_result_file_iff_success [] (some "key")
        (fun _ _ => ProviderResult.payload sampleDocJson)
        { filename := "doc.png", content_type := "image/png", content_b64 := "img" }
        "id1" "2024-01-01T00:00:00" rfl).1 sampleDoc rfl).2
